import Mathlib

/-!
Shallow embedding of the athena-client query-execution engine.

The definitions below are translated from the TypeScript sources:
`AthenaClient` (execute / _execute / canStartQuery / startQuery / endQuery)
and `AthenaRequest` (startQuery / checkQuery / stopQuery / getQueryExecution /
getQueryResults), together with the module-level helpers `isRetryException`
and `canRetry`.

Modelling conventions:
- JavaScript numeric options read through `x || default` are modelled by
  `jsOrNat`: both absence and an explicit 0 yield the default, matching
  JS truthiness.  String defaulting through `x || default` is `jsOrString`.
- Each retrying backend call is modelled by `retryRun`, applied to the
  wait formula of the operation; the outcome of attempt number n is supplied
  as the n-th entry of an explicit attempt list, and the waits slept between
  attempts are returned alongside the settled result.  An exhausted attempt
  list models a callback that never fires (the promise never settles), hence
  the `Option` result.
- The polling loop of `AthenaClient._execute` is driven by a script of
  checkQuery outcomes plus the loop index at which the timeout flag is first
  observed true; the emitted stream events and the number of `endQuery`
  (slot release) calls are collected in `ExecOutcome`.
- The `toPromise` listeners are modelled as a fold over the stream events,
  settling once: `resolve(resultSet)` on the end event (the accumulated
  records list is carried, exactly as the code carries it, but does not
  appear in the resolved value, exactly as in the code), `reject(err)` on
  the error event.
- The process-wide concurrency counter operations use `Int`, so that the
  clamps `Math.min(++n, max)` and `Math.max(--n, 0)` are modelled faithfully.
-/

/-- JS `x || d` for an optional numeric option: `undefined` and `0` are falsy. -/
def jsOrNat : Option Nat → Nat → Nat
  | none, d => d
  | some n, d => if n = 0 then d else n

/-- JS `s || d` for an optional string: `undefined` and `""` are falsy. -/
def jsOrString : Option String → String → String
  | none, d => d
  | some s, d => if s = "" then d else s

/-- An AWS SDK error as consumed by `isRetryException`: a code and a message. -/
structure AWSError where
  code : String
  message : String
deriving DecidableEq

/-- A settled JS error value: either an AWS error or `new Error(message)`. -/
inductive JsError where
  | aws (code message : String)
  | newError (message : String)
deriving DecidableEq

def defaultBaseRetryWait : Nat := 200
def defaultRetryWaitMax : Nat := 10000
def defaultRetryCountMax : Nat := 10
def defaultPollingInterval : Nat := 1000
def defaultQueryTimeout : Nat := 0
def defaultExecRightCheckInterval : Nat := 100

/-- `AthenaRequestConfig` from request.ts; numeric fields are optional. -/
structure AthenaRequestConfig where
  bucketUri : String
  baseRetryWait : Option Nat
  retryWaitMax : Option Nat
  retryCountMax : Option Nat
  database : Option String
  encryptionOption : Option String
  encryptionKmsKey : Option String
  workGroup : Option String
deriving DecidableEq

/-- `AthenaClientConfig` from client.ts extends the request config. -/
structure AthenaClientConfig extends AthenaRequestConfig where
  pollingInterval : Option Nat
  queryTimeout : Option Nat
  concurrentExecMax : Option Nat
  execRightCheckInterval : Option Nat
  skipFetchResult : Option Bool
deriving DecidableEq

/-- `config.baseRetryWait || defaultBaseRetryWait` as read inside the loops. -/
def resolvedBaseRetryWait (config : AthenaRequestConfig) : Nat :=
  jsOrNat config.baseRetryWait defaultBaseRetryWait

/-- `config.retryWaitMax || defaultRetryWaitMax` as read inside `startQuery`. -/
def resolvedRetryWaitMax (config : AthenaRequestConfig) : Nat :=
  jsOrNat config.retryWaitMax defaultRetryWaitMax

/-- `config.retryCountMax || defaultRetryCountMax` as read inside `canRetry`. -/
def resolvedRetryCountMax (config : AthenaRequestConfig) : Nat :=
  jsOrNat config.retryCountMax defaultRetryCountMax

/-- `config.pollingInterval || defaultPollingInterval` from `_execute`. -/
def resolvedPollingInterval (config : AthenaClientConfig) : Nat :=
  jsOrNat config.pollingInterval defaultPollingInterval

/-- `config.execRightCheckInterval || defaultExecRightCheckInterval` from `_execute`. -/
def resolvedExecRightCheckInterval (config : AthenaClientConfig) : Nat :=
  jsOrNat config.execRightCheckInterval defaultExecRightCheckInterval

/-- `canRetry(retryCount, config)` from request.ts:
`retryCount < (config.retryCountMax || defaultRetryCountMax)`. -/
def canRetry (retryCount : Nat) (config : AthenaRequestConfig) : Bool :=
  decide (retryCount < resolvedRetryCountMax config)

/-- `isRetryException(err)` from request.ts. -/
def isRetryException (err : AWSError) : Bool :=
  err.code == "ThrottlingException" || err.code == "TooManyRequestsException" ||
    err.message == "Query exhausted resources at this scale factor"

/-- The wait computed on the `AthenaRequest.startQuery` retry path:
`min((baseRetryWait || 200) * 2 ^ retryCount, retryWaitMax || 10000)`. -/
def startQueryWait (config : AthenaRequestConfig) (retryCount : Nat) : Nat :=
  min (resolvedBaseRetryWait config * 2 ^ retryCount) (resolvedRetryWaitMax config)

/-- The wait computed on the `AthenaRequest.stopQuery` retry path:
`Math.pow(baseRetryWait || 200, retryCount)` (no cap). -/
def stopQueryWait (config : AthenaRequestConfig) (retryCount : Nat) : Nat :=
  resolvedBaseRetryWait config ^ retryCount

/-- The wait computed on the `AthenaRequest.getQueryExecution` retry path:
`Math.pow(baseRetryWait || 200, retryCount)` (no cap). -/
def getQueryExecutionWait (config : AthenaRequestConfig) (retryCount : Nat) : Nat :=
  resolvedBaseRetryWait config ^ retryCount

/-- The shared `loopFunc` skeleton of the three retrying operations in
request.ts: on an error that `isRetryException` accepts while `canRetry`
holds, sleep `waitOf retryCount` and retry with `retryCount + 1`; on any
other error reject; on success resolve.  The attempt list supplies the
callback outcome of each attempt; the slept waits are returned in order. -/
def retryRun {α : Type} (waitOf : Nat → Nat) (config : AthenaRequestConfig) :
    List (Except AWSError α) → Nat → Option (Except AWSError α × List Nat)
  | [], _ => none
  | Except.ok v :: _, _ => some (Except.ok v, [])
  | Except.error e :: rest, retryCount =>
    if isRetryException e && canRetry retryCount config then
      match retryRun waitOf config rest (retryCount + 1) with
      | none => none
      | some (r, ws) => some (r, waitOf retryCount :: ws)
    else
      some (Except.error e, [])

/-- `AthenaRequest.startQuery`: retried submission, resolving to the
`QueryExecutionId`, with the capped doubling backoff. -/
def startQuery (config : AthenaRequestConfig)
    (attempts : List (Except AWSError String)) :
    Option (Except AWSError String × List Nat) :=
  retryRun (startQueryWait config) config attempts 0

/-- `AthenaRequest.stopQuery`: retried cancel, with the `base ^ n` backoff. -/
def stopQuery (config : AthenaRequestConfig)
    (attempts : List (Except AWSError Unit)) :
    Option (Except AWSError Unit × List Nat) :=
  retryRun (stopQueryWait config) config attempts 0

/-- `AthenaRequest.getQueryExecution`: retried status fetch, with the
`base ^ n` backoff. -/
def getQueryExecution {α : Type} (config : AthenaRequestConfig)
    (attempts : List (Except AWSError α)) :
    Option (Except AWSError α × List Nat) :=
  retryRun (getQueryExecutionWait config) config attempts 0

/-- `AthenaRequest.getQueryResults`: a single `athena.getQueryResults` call
whose callback rejects on any error and resolves otherwise — there is no
retry loop around it, so only the first attempt is ever consumed. -/
def getQueryResults {α : Type} (attempts : List (Except AWSError α)) :
    Option (Except AWSError α × List Nat) :=
  match attempts with
  | [] => none
  | a :: _ => some (a, [])

/-- The `QueryExecution.Status` fields inspected by `checkQuery`. -/
structure QueryStatus where
  state : String
  stateChangeReason : Option String
deriving DecidableEq

/-- The switch on `queryExecution.Status.State` inside
`AthenaRequest.checkQuery`, mapping a status snapshot to the settled value
of the returned promise: `ok false` keeps polling, `ok true` reports
success, `error` rejects. -/
def checkQuery (queryStatus : QueryStatus) : Except JsError Bool :=
  if queryStatus.state = "QUEUED" then Except.ok false
  else if queryStatus.state = "RUNNING" then Except.ok false
  else if queryStatus.state = "SUCCEEDED" then Except.ok true
  else if queryStatus.state = "FAILED" then
    Except.error (JsError.newError
      (jsOrString queryStatus.stateChangeReason "FAILED: Execution Error"))
  else if queryStatus.state = "CANCELLED" then
    Except.error (JsError.newError "FAILED: Query CANCELLED")
  else
    Except.error (JsError.newError
      ("FAILED: UnKnown State " ++ queryStatus.state))

namespace AthenaClient

/-- `AthenaClient.canStartQuery`: `concurrentExecNum < concurrentExecMax`. -/
def canStartQuery (concurrentExecNum concurrentExecMax : Int) : Bool :=
  decide (concurrentExecNum < concurrentExecMax)

/-- `AthenaClient.startQuery`:
`concurrentExecNum = Math.min(++concurrentExecNum, concurrentExecMax)`. -/
def startQuery (concurrentExecNum concurrentExecMax : Int) : Int :=
  min (concurrentExecNum + 1) concurrentExecMax

/-- `AthenaClient.endQuery`:
`concurrentExecNum = Math.max(--concurrentExecNum, 0)`. -/
def endQuery (concurrentExecNum : Int) : Int :=
  max (concurrentExecNum - 1) 0

end AthenaClient

/-- The ceiling update in the `AthenaClient` constructor:
`if (config.concurrentExecMax) { concurrentExecMax = config.concurrentExecMax }` —
a falsy value (absent or 0) leaves the process-wide ceiling unchanged. -/
def constructorConcurrentExecMax (configVal : Option Nat) (current : Nat) : Nat :=
  match configVal with
  | none => current
  | some n => if n = 0 then current else n

/-- Events observable on the `csvTransform` stream handed to `toPromise` and
`toStream`: decoded records, the `query_end` payload, stream end, error. -/
inductive StreamEvent (T R : Type) where
  | data (record : T)
  | query_end (resultSet : R)
  | endOfStream
  | error (e : JsError)
deriving DecidableEq

/-- How the promise built by `execute().toPromise` settles.  Faithful to the
code, the resolved value is only the saved `resultSet` (possibly still
unset); the accumulated records do not appear in it. -/
inductive PromiseSettle (R : Type) where
  | resolvedWith (resultSet : Option R)
  | rejectedWith (e : JsError)
deriving DecidableEq

/-- The event listeners installed by `toPromise`, folded over the stream
events: `data` pushes onto `records`, `query_end` saves the result set,
`end` resolves with the saved result set, `error` rejects.  `none` means
the promise never settles. -/
def toPromiseRun {T R : Type} :
    List (StreamEvent T R) → List T → Option R → Option (PromiseSettle R)
  | [], _, _ => none
  | StreamEvent.data record :: rest, records, resultSet =>
    toPromiseRun rest (records ++ [record]) resultSet
  | StreamEvent.query_end q :: rest, records, _ =>
    toPromiseRun rest records (some q)
  | StreamEvent.endOfStream :: _, _, resultSet =>
    some (PromiseSettle.resolvedWith resultSet)
  | StreamEvent.error e :: _, _, _ =>
    some (PromiseSettle.rejectedWith e)

/-- `execute().toPromise()` attached from the start of the event stream. -/
def toPromise {T R : Type} (events : List (StreamEvent T R)) :
    Option (PromiseSettle R) :=
  toPromiseRun events [] none

/-- How one exit from the polling loop of `_execute` came about. -/
inductive PollExit where
  | timedOut
  | succeeded
  | threw (e : JsError)
deriving DecidableEq

/-- Whether the `isTimeout` flag reads true at loop index `i`: the flag is
set by the timer before the condition test of iteration `timeoutAt`. -/
def isTimeoutAt : Option Nat → Nat → Bool
  | none, _ => false
  | some t, i => decide (t ≤ i)

/-- The loop `while (!isTimeout && !(await checkQuery(...)))` of `_execute`:
at each iteration the timeout flag is tested first (short-circuit), then the
next scripted `checkQuery` outcome is awaited.  `none` models a loop that is
still running when the script runs out. -/
def pollLoop : List (Except JsError Bool) → Option Nat → Nat → Option PollExit
  | [], timeoutAt, i =>
    if isTimeoutAt timeoutAt i then some PollExit.timedOut else none
  | c :: rest, timeoutAt, i =>
    if isTimeoutAt timeoutAt i then some PollExit.timedOut
    else
      match c with
      | Except.error e => some (PollExit.threw e)
      | Except.ok true => some PollExit.succeeded
      | Except.ok false => pollLoop rest timeoutAt (i + 1)

/-- A script of backend outcomes driving one `_execute` run: the settled
result of `request.startQuery`, the successive `checkQuery` outcomes, the
loop index at which the timeout flag is first seen true (if ever), the
settled result of `request.stopQuery`, and of `request.getQueryResults`. -/
structure ExecScript (R : Type) where
  startQueryResult : Except JsError String
  checkResults : List (Except JsError Bool)
  timeoutAt : Option Nat
  stopQueryResult : Except JsError Unit
  fetchResult : Except JsError R

/-- What one terminated `_execute` run did: the events emitted on the
csvTransform, and how many times `this.endQuery()` ran. -/
structure ExecOutcome (R : Type) where
  events : List (StreamEvent Unit R)
  endQueryCalls : Nat

/-- `AthenaClient._execute` from the top of its try block: submit, poll
until timeout or a terminal check, on timeout await `stopQuery` and then
throw the query-timeout error, on success fetch the results, emit
`query_end`, release the slot and end the stream; any error thrown inside
the try block releases the slot once and is emitted as an error event.
`none` models a run that never terminates (the poll loop never exits). -/
def _execute {R : Type} (s : ExecScript R) : Option (ExecOutcome R) :=
  match s.startQueryResult with
  | Except.error e => some ⟨[StreamEvent.error e], 1⟩
  | Except.ok _queryId =>
    match pollLoop s.checkResults s.timeoutAt 0 with
    | none => none
    | some (PollExit.threw e) => some ⟨[StreamEvent.error e], 1⟩
    | some PollExit.timedOut =>
      match s.stopQueryResult with
      | Except.error e => some ⟨[StreamEvent.error e], 1⟩
      | Except.ok _ =>
        some ⟨[StreamEvent.error (JsError.newError "query timeout")], 1⟩
    | some PollExit.succeeded =>
      match s.fetchResult with
      | Except.error e => some ⟨[StreamEvent.error e], 1⟩
      | Except.ok resultSet =>
        some ⟨[StreamEvent.query_end resultSet, StreamEvent.endOfStream], 1⟩

/-- A transient backend error, accepted by `isRetryException`. -/
def transientErr : AWSError :=
  ⟨"ThrottlingException", "Rate exceeded"⟩

/-- The default request configuration: every optional field absent. -/
def cfg0 : AthenaRequestConfig :=
  ⟨"s3://bucket/path", none, none, none, none, none, none, none⟩

/-- A request configuration with `retryCountMax` set to 1. -/
def cfgRetryOnce : AthenaRequestConfig :=
  ⟨"s3://bucket/path", none, none, some 1, none, none, none, none⟩

/-- A request configuration passing an explicit 0 for every backoff option. -/
def cfgZeros : AthenaRequestConfig :=
  ⟨"s3://bucket/path", some 0, some 0, some 0, none, none, none, none⟩

/-- A client configuration passing an explicit 0 for every numeric option. -/
def clientCfgZeros : AthenaClientConfig :=
  ⟨cfgZeros, some 0, some 0, some 0, some 0, none⟩

/-- A permanent backend error rejecting the cancel request. -/
def cancelFailure : JsError :=
  JsError.aws "AccessDeniedException" "not authorized"

/-- A run whose deadline elapses before the first poll and whose cancel
request itself fails. -/
def timeoutScript : ExecScript String :=
  ⟨Except.ok "qid", [], some 0, Except.error cancelFailure, Except.ok "resultSet"⟩

/-- A run whose deadline elapses before the first poll and whose cancel
request succeeds. -/
def timeoutOkScript : ExecScript String :=
  ⟨Except.ok "qid", [], some 0, Except.ok (), Except.ok "resultSet"⟩

/-- A run that succeeds at the first poll and fetches its result page. -/
def successScript : ExecScript String :=
  ⟨Except.ok "qid", [Except.ok true], none, Except.ok (), Except.ok "resultSet"⟩

/-- The resolved retry cap is always positive: absence and an explicit 0
both resolve to the default 10, and any other explicit value is positive. -/
theorem resolvedRetryCountMax_pos (config : AthenaRequestConfig) :
    0 < resolvedRetryCountMax config := by
  cases hcm : config.retryCountMax with
  | none => simp [resolvedRetryCountMax, jsOrNat, hcm, defaultRetryCountMax]
  | some n =>
    simp only [resolvedRetryCountMax, jsOrNat, hcm]
    split
    · simp [defaultRetryCountMax]
    · omega

theorem canRetry_of_lt {r : Nat} {config : AthenaRequestConfig}
    (h : r < resolvedRetryCountMax config) : canRetry r config = true := by
  simp [canRetry, h]

theorem canRetry_zero (config : AthenaRequestConfig) : canRetry 0 config = true :=
  canRetry_of_lt (resolvedRetryCountMax_pos config)

theorem isRetryException_transientErr : isRetryException transientErr = true := rfl

/-- One step of a retry loop on a retryable error below the cap. -/
theorem retryRun_cons_error_retry {α : Type} (waitOf : Nat → Nat)
    (config : AthenaRequestConfig) (e : AWSError)
    (rest : List (Except AWSError α)) (retryCount : Nat)
    (he : isRetryException e = true) (hc : canRetry retryCount config = true) :
    retryRun waitOf config (Except.error e :: rest) retryCount
      = match retryRun waitOf config rest (retryCount + 1) with
        | none => none
        | some (r, ws) => some (r, waitOf retryCount :: ws) := by
  simp [retryRun, he, hc]

/-- Running any of the retry loops against k transient errors followed by a
success resolves with the success and sleeps exactly the waits of attempt
indices r, r+1, ..., r+k-1, provided every one of those indices is below
the retry cap. -/
theorem retryRun_transient_ok {α : Type} (waitOf : Nat → Nat)
    (config : AthenaRequestConfig) (v : α) (rest : List (Except AWSError α)) :
    ∀ (k r : Nat), (∀ j, j < k → canRetry (r + j) config = true) →
      retryRun waitOf config
          (List.replicate k (Except.error transientErr) ++ Except.ok v :: rest) r
        = some (Except.ok v, (List.range' r k).map waitOf) := by
  intro k
  induction k with
  | zero => intro r _; simp [retryRun]
  | succ k ih =>
    intro r h
    have h0 : canRetry r config = true := by
      have := h 0 (Nat.succ_pos k)
      simpa using this
    have hrec := ih (r + 1) (by
      intro j hj
      have := h (j + 1) (by omega)
      rw [show r + 1 + j = r + (j + 1) by omega]
      exact this)
    rw [List.replicate_succ, List.cons_append]
    simp only [retryRun, isRetryException_transientErr, h0, Bool.and_self, if_true]
    rw [hrec, List.range'_succ]
    simp

/-- Running any of the retry loops from attempt index r against m+1
transient errors, where index r+m is exactly the retry cap, rejects with
the transient error after sleeping the waits of indices r, ..., r+m-1. -/
theorem retryRun_transient_exhaust {α : Type} (waitOf : Nat → Nat)
    (config : AthenaRequestConfig) (rest : List (Except AWSError α)) :
    ∀ (m r : Nat), r + m = resolvedRetryCountMax config →
      retryRun waitOf config
          (List.replicate (m + 1) (Except.error transientErr) ++ rest) r
        = some (Except.error transientErr, (List.range' r m).map waitOf) := by
  intro m
  induction m with
  | zero =>
    intro r hr
    have hc : canRetry r config = false := by
      simp only [canRetry, decide_eq_false_iff_not]
      omega
    simp [retryRun, isRetryException_transientErr, hc]
  | succ m ih =>
    intro r hr
    have h0 : canRetry r config = true := by
      simp only [canRetry, decide_eq_true_eq]
      omega
    have hrec := ih (r + 1) (by omega)
    rw [List.replicate_succ, List.cons_append,
      retryRun_cons_error_retry waitOf config transientErr _ r
        isRetryException_transientErr h0,
      hrec]
    simp [List.range'_succ]

theorem range'_zero_map (waitOf : Nat → Nat) (k : Nat) :
    (List.range' 0 k).map waitOf = (List.range k).map waitOf := by
  rw [List.range'_eq_map_range]
  simp [List.map_map, Function.comp]

/-- Claim C1 (code bug evaluation): on a stream carrying three decoded
records, the query-end metadata and the end event, the promise built by
`execute().toPromise` resolves with the saved result set alone — the
`PromiseSettle.resolvedWith` value has no record component at all, although
three records were accumulated — and on an error event it rejects with
exactly that error. -/
theorem c1_aggregate_promise_drops_records :
    toPromise (T := Nat) (R := String)
        [StreamEvent.data 1, StreamEvent.data 2, StreamEvent.data 3,
         StreamEvent.query_end "meta", StreamEvent.endOfStream]
      = some (PromiseSettle.resolvedWith (some "meta")) ∧
    toPromise (T := Nat) (R := String)
        [StreamEvent.error (JsError.newError "boom")]
      = some (PromiseSettle.rejectedWith (JsError.newError "boom")) :=
  ⟨rfl, rfl⟩

/-- Claim C2 (counterexample): in a run whose deadline elapses and whose
cancel request rejects, `_execute` surfaces the rejection of the cancel
request to the caller — not the query-timeout error — so a cancel failure
is not swallowed. -/
theorem c2_counterexample :
    _execute timeoutScript = some ⟨[StreamEvent.error cancelFailure], 1⟩ ∧
    cancelFailure ≠ JsError.newError "query timeout" := by
  refine ⟨rfl, ?_⟩
  decide

/-- Claim C2 (amended): when the deadline elapses while polling, a cancel
request is awaited; if the cancel succeeds the execution terminates with
the query-timeout error, but if the cancel itself fails, the error of the
cancel request is surfaced to the caller instead of the timeout error.
Either way the admission slot is released once. -/
theorem c2_timeout_cancel_precedence {R : Type} (s : ExecScript R) (qid : String)
    (hstart : s.startQueryResult = Except.ok qid)
    (hpoll : pollLoop s.checkResults s.timeoutAt 0 = some PollExit.timedOut) :
    (s.stopQueryResult = Except.ok () →
      _execute s = some ⟨[StreamEvent.error (JsError.newError "query timeout")], 1⟩) ∧
    ∀ e, s.stopQueryResult = Except.error e →
      _execute s = some ⟨[StreamEvent.error e], 1⟩ := by
  constructor
  · intro h
    simp only [_execute, hstart, hpoll, h]
  · intro e h
    simp only [_execute, hstart, hpoll, h]

/-- Claim C2 (witness): a concrete timed-out run with a successful cancel
terminates with the query-timeout error. -/
theorem c2_witness :
    _execute timeoutOkScript
      = some ⟨[StreamEvent.error (JsError.newError "query timeout")], 1⟩ :=
  (c2_timeout_cancel_precedence timeoutOkScript "qid" rfl rfl).1 rfl

/-- Claim C3 (counterexample): the result-page fetch is not wrapped in the
retry policy: on a transient error (accepted by `isRetryException`) it
rejects immediately with that error and zero retry waits, even though the
very next attempt would have succeeded. -/
theorem c3_counterexample :
    isRetryException transientErr = true ∧
    getQueryResults (α := Nat) [Except.error transientErr, Except.ok 7]
      = some (Except.error transientErr, []) :=
  ⟨rfl, rfl⟩

/-- Claim C3 (amended): submit, status poll and cancel are each wrapped in
the retry policy — a transient error is retried after the computed backoff
wait of the operation — while the result-page fetch is not wrapped at all:
it surfaces every error, transient included, immediately with no retry. -/
theorem c3_retry_coverage {α : Type} (c : AthenaRequestConfig) (qid : String)
    (qe : α) :
    startQuery c [Except.error transientErr, Except.ok qid]
      = some (Except.ok qid, [startQueryWait c 0]) ∧
    stopQuery c [Except.error transientErr, Except.ok ()]
      = some (Except.ok (), [stopQueryWait c 0]) ∧
    getQueryExecution c [Except.error transientErr, Except.ok qe]
      = some (Except.ok qe, [getQueryExecutionWait c 0]) ∧
    ∀ (e : AWSError) (rest : List (Except AWSError α)),
      getQueryResults (Except.error e :: rest) = some (Except.error e, []) := by
  have h0 := canRetry_zero c
  refine ⟨?_, ?_, ?_, fun e rest => rfl⟩
  · simp [startQuery, retryRun, isRetryException_transientErr, h0]
  · simp [stopQuery, retryRun, isRetryException_transientErr, h0]
  · simp [getQueryExecution, retryRun, isRetryException_transientErr, h0]

/-- Claim C4: the submission path and the status-poll/cancel paths use two
different backoff formulas.  Run against k transient errors followed by a
success, `startQuery` sleeps min((baseRetryWait or 200) * 2 ^ n,
retryWaitMax or 10000) before retry n, while `stopQuery` and
`getQueryExecution` sleep (baseRetryWait or 200) ^ n, uncapped. -/
theorem c4_two_backoff_formulas (c : AthenaRequestConfig) (k : Nat)
    (qid : String) (hk : k ≤ resolvedRetryCountMax c) :
    startQuery c (List.replicate k (Except.error transientErr) ++ [Except.ok qid])
      = some (Except.ok qid, (List.range k).map fun n =>
          min (resolvedBaseRetryWait c * 2 ^ n) (resolvedRetryWaitMax c)) ∧
    stopQuery c (List.replicate k (Except.error transientErr) ++ [Except.ok ()])
      = some (Except.ok (), (List.range k).map fun n =>
          resolvedBaseRetryWait c ^ n) ∧
    getQueryExecution (α := String) c
        (List.replicate k (Except.error transientErr) ++ [Except.ok qid])
      = some (Except.ok qid, (List.range k).map fun n =>
          resolvedBaseRetryWait c ^ n) := by
  have hcr : ∀ j, j < k → canRetry (0 + j) c = true := by
    intro j hj
    apply canRetry_of_lt
    omega
  refine ⟨?_, ?_, ?_⟩
  · rw [startQuery, retryRun_transient_ok (startQueryWait c) c qid [] k 0 hcr,
      range'_zero_map]
    rfl
  · rw [stopQuery, retryRun_transient_ok (stopQueryWait c) c () [] k 0 hcr,
      range'_zero_map]
    rfl
  · rw [getQueryExecution, retryRun_transient_ok (getQueryExecutionWait c) c qid [] k 0 hcr,
      range'_zero_map]
    rfl

/-- Claim C4 (witness): with the default configuration and two transient
errors, submission sleeps 200 then 400 ms, while cancel sleeps 1 then
200 ms — two visibly different formulas. -/
theorem c4_witness :
    startQuery cfg0 (List.replicate 2 (Except.error transientErr) ++ [Except.ok "qid"])
      = some (Except.ok "qid", (List.range 2).map fun n =>
          min (resolvedBaseRetryWait cfg0 * 2 ^ n) (resolvedRetryWaitMax cfg0)) ∧
    stopQuery cfg0 (List.replicate 2 (Except.error transientErr) ++ [Except.ok ()])
      = some (Except.ok (), (List.range 2).map fun n =>
          resolvedBaseRetryWait cfg0 ^ n) ∧
    getQueryExecution (α := String) cfg0
        (List.replicate 2 (Except.error transientErr) ++ [Except.ok "qid"])
      = some (Except.ok "qid", (List.range 2).map fun n =>
          resolvedBaseRetryWait cfg0 ^ n) :=
  c4_two_backoff_formulas cfg0 2 "qid" (by decide)

/-- Claim C5: on the submission path the wait before retry i is exactly
min((baseRetryWait or 200) * 2 ^ i, retryWaitMax or 10000) — the waits a
k-error run actually sleeps are the first k values of `startQueryWait` —
and the wait sequence is monotonically non-decreasing in i. -/
theorem c5_submission_backoff_monotone (c : AthenaRequestConfig) (k i : Nat)
    (qid : String) (hk : k ≤ resolvedRetryCountMax c) :
    startQuery c (List.replicate k (Except.error transientErr) ++ [Except.ok qid])
      = some (Except.ok qid, (List.range k).map (startQueryWait c)) ∧
    startQueryWait c i
      = min (resolvedBaseRetryWait c * 2 ^ i) (resolvedRetryWaitMax c) ∧
    startQueryWait c i ≤ startQueryWait c (i + 1) := by
  have hcr : ∀ j, j < k → canRetry (0 + j) c = true := by
    intro j hj
    apply canRetry_of_lt
    omega
  refine ⟨?_, rfl, ?_⟩
  · rw [startQuery, retryRun_transient_ok (startQueryWait c) c qid [] k 0 hcr,
      range'_zero_map]
  · unfold startQueryWait
    exact min_le_min
      (Nat.mul_le_mul (le_refl _)
        (Nat.pow_le_pow_right (by norm_num) (Nat.le_succ i)))
      (le_refl _)

/-- Claim C5 (witness): the default configuration at k = 2, i = 0. -/
theorem c5_witness :
    startQuery cfg0 (List.replicate 2 (Except.error transientErr) ++ [Except.ok "qid"])
      = some (Except.ok "qid", (List.range 2).map (startQueryWait cfg0)) ∧
    startQueryWait cfg0 0
      = min (resolvedBaseRetryWait cfg0 * 2 ^ 0) (resolvedRetryWaitMax cfg0) ∧
    startQueryWait cfg0 0 ≤ startQueryWait cfg0 (0 + 1) :=
  c5_submission_backoff_monotone cfg0 2 0 "qid" (by decide)

/-- Claim C6: the `checkQuery` status switch maps QUEUED and RUNNING to
continued polling (resolve false); SUCCEEDED, FAILED and CANCELLED each to
exactly one terminal outcome; FAILED carries the backend reason when one is
stated (non-empty) and the generic failure reason when absent; any other
status string rejects with a reason naming that status. -/
theorem c6_check_status_mapping (st : QueryStatus) :
    ((st.state = "QUEUED" ∨ st.state = "RUNNING") →
      checkQuery st = Except.ok false) ∧
    (st.state = "SUCCEEDED" → checkQuery st = Except.ok true) ∧
    (st.state = "FAILED" → st.stateChangeReason = none →
      checkQuery st = Except.error (JsError.newError "FAILED: Execution Error")) ∧
    (∀ reason, st.state = "FAILED" → st.stateChangeReason = some reason →
      reason ≠ "" →
      checkQuery st = Except.error (JsError.newError reason)) ∧
    (st.state = "CANCELLED" →
      checkQuery st = Except.error (JsError.newError "FAILED: Query CANCELLED")) ∧
    (st.state ≠ "QUEUED" → st.state ≠ "RUNNING" → st.state ≠ "SUCCEEDED" →
      st.state ≠ "FAILED" → st.state ≠ "CANCELLED" →
      checkQuery st
        = Except.error (JsError.newError ("FAILED: UnKnown State " ++ st.state))) := by
  obtain ⟨state, reason⟩ := st
  refine ⟨?_, ?_, ?_, ?_, ?_, ?_⟩
  · rintro (h | h) <;> (subst h; simp [checkQuery])
  · intro h
    subst h
    simp [checkQuery]
  · intro h hr
    subst h
    subst hr
    simp [checkQuery, jsOrString]
  · intro r h hr hne
    subst h
    subst hr
    simp [checkQuery, jsOrString, hne]
  · intro h
    subst h
    simp [checkQuery]
  · intro h1 h2 h3 h4 h5
    simp only [checkQuery]
    rw [if_neg h1, if_neg h2, if_neg h3, if_neg h4, if_neg h5]

/-- Claim C6 (witness): the mapping at one concrete status snapshot per
branch, each obtained from the mapping theorem. -/
theorem c6_witness :
    checkQuery ⟨"QUEUED", none⟩ = Except.ok false ∧
    checkQuery ⟨"RUNNING", none⟩ = Except.ok false ∧
    checkQuery ⟨"SUCCEEDED", none⟩ = Except.ok true ∧
    checkQuery ⟨"FAILED", none⟩
      = Except.error (JsError.newError "FAILED: Execution Error") ∧
    checkQuery ⟨"FAILED", some "division by zero"⟩
      = Except.error (JsError.newError "division by zero") ∧
    checkQuery ⟨"CANCELLED", none⟩
      = Except.error (JsError.newError "FAILED: Query CANCELLED") ∧
    checkQuery ⟨"BOGUS", none⟩
      = Except.error (JsError.newError ("FAILED: UnKnown State " ++ "BOGUS")) :=
  ⟨(c6_check_status_mapping _).1 (Or.inl rfl),
   (c6_check_status_mapping _).1 (Or.inr rfl),
   (c6_check_status_mapping _).2.1 rfl,
   (c6_check_status_mapping _).2.2.1 rfl rfl,
   (c6_check_status_mapping _).2.2.2.1 "division by zero" rfl rfl (by decide),
   (c6_check_status_mapping _).2.2.2.2.1 rfl,
   (c6_check_status_mapping _).2.2.2.2.2 (by decide) (by decide) (by decide)
     (by decide) (by decide)⟩

/-- Claim C7 (counterexample): with retryCountMax = 1, a sequence of
exactly one transient error (so, at least retryCountMax transient errors)
followed by a success yields an overall success, not a permanent failure:
the cap allows retryCountMax retries, and failure needs cap + 1 errors. -/
theorem c7_counterexample :
    resolvedRetryCountMax cfgRetryOnce = 1 ∧
    startQuery cfgRetryOnce [Except.error transientErr, Except.ok "qid"]
      = some (Except.ok "qid", [200]) := by
  refine ⟨rfl, ?_⟩
  rfl

/-- Claim C7 (amended): for each retried operation, k transient errors
followed by a success yield an overall success after exactly k retries
whenever k ≤ retryCountMax (not only k < retryCountMax), and a sequence of
retryCountMax + 1 transient errors (strictly more than the cap) yields a
permanent failure carrying the transient error, after exactly
retryCountMax retries. -/
theorem c7_retry_cap_boundary {α : Type} (c : AthenaRequestConfig)
    (qid : String) (qe : α) (k : Nat) (hk : k ≤ resolvedRetryCountMax c) :
    (∃ ws, startQuery c
        (List.replicate k (Except.error transientErr) ++ [Except.ok qid])
      = some (Except.ok qid, ws) ∧ ws.length = k) ∧
    (∃ ws, stopQuery c
        (List.replicate k (Except.error transientErr) ++ [Except.ok ()])
      = some (Except.ok (), ws) ∧ ws.length = k) ∧
    (∃ ws, getQueryExecution c
        (List.replicate k (Except.error transientErr) ++ [Except.ok qe])
      = some (Except.ok qe, ws) ∧ ws.length = k) ∧
    (∃ ws, startQuery c
        (List.replicate (resolvedRetryCountMax c + 1) (Except.error transientErr))
      = some (Except.error transientErr, ws) ∧
      ws.length = resolvedRetryCountMax c) ∧
    (∃ ws, stopQuery c
        (List.replicate (resolvedRetryCountMax c + 1) (Except.error transientErr))
      = some (Except.error transientErr, ws) ∧
      ws.length = resolvedRetryCountMax c) ∧
    (∃ ws, getQueryExecution (α := α) c
        (List.replicate (resolvedRetryCountMax c + 1) (Except.error transientErr))
      = some (Except.error transientErr, ws) ∧
      ws.length = resolvedRetryCountMax c) := by
  have hcr : ∀ j, j < k → canRetry (0 + j) c = true := by
    intro j hj
    apply canRetry_of_lt
    omega
  refine ⟨?_, ?_, ?_, ?_, ?_, ?_⟩
  · exact ⟨_, by
      rw [startQuery, retryRun_transient_ok (startQueryWait c) c qid [] k 0 hcr],
      by simp⟩
  · exact ⟨_, by
      rw [stopQuery, retryRun_transient_ok (stopQueryWait c) c () [] k 0 hcr],
      by simp⟩
  · exact ⟨_, by
      rw [getQueryExecution,
        retryRun_transient_ok (getQueryExecutionWait c) c qe [] k 0 hcr],
      by simp⟩
  · have h := retryRun_transient_exhaust (α := String) (startQueryWait c) c []
      (resolvedRetryCountMax c) 0 (by omega)
    rw [List.append_nil] at h
    exact ⟨_, h, by simp⟩
  · have h := retryRun_transient_exhaust (α := Unit) (stopQueryWait c) c []
      (resolvedRetryCountMax c) 0 (by omega)
    rw [List.append_nil] at h
    exact ⟨_, h, by simp⟩
  · have h := retryRun_transient_exhaust (α := α) (getQueryExecutionWait c) c []
      (resolvedRetryCountMax c) 0 (by omega)
    rw [List.append_nil] at h
    exact ⟨_, h, by simp⟩

/-- Claim C7 (witness): the boundary theorem at the configuration with
retryCountMax = 1 and k = 1: one error then success succeeds with one
retry observed. -/
theorem c7_witness :
    ∃ ws, startQuery cfgRetryOnce
        (List.replicate 1 (Except.error transientErr) ++ [Except.ok "qid"])
      = some (Except.ok "qid", ws) ∧ ws.length = 1 :=
  (c7_retry_cap_boundary cfgRetryOnce "qid" () 1 (by decide)).1

/-- Claim C8: every terminated `_execute` run — success, backend failure on
submission, polling or fetch, and both timeout paths — calls the slot
release `endQuery` exactly once, and the release decrement is floored at
zero, so the running counter never becomes negative even on a release from
zero. -/
theorem c8_slot_release {R : Type} (s : ExecScript R) (o : ExecOutcome R)
    (h : _execute s = some o) :
    o.endQueryCalls = 1 ∧ ∀ n : Int, 0 ≤ AthenaClient.endQuery n := by
  refine ⟨?_, fun n => le_max_right _ _⟩
  obtain ⟨sq, checks, ta, stq, fr⟩ := s
  cases sq with
  | error e =>
    simp only [_execute] at h
    injection h with h2
    rw [← h2]
  | ok qid =>
    simp only [_execute] at h
    cases hp : pollLoop checks ta 0 with
    | none =>
      rw [hp] at h
      exact Option.noConfusion h
    | some pe =>
      rw [hp] at h
      cases pe with
      | threw e =>
        injection h with h2
        rw [← h2]
      | timedOut =>
        cases stq with
        | error e =>
          injection h with h2
          rw [← h2]
        | ok u =>
          injection h with h2
          rw [← h2]
      | succeeded =>
        cases fr with
        | error e =>
          injection h with h2
          rw [← h2]
        | ok rs =>
          injection h with h2
          rw [← h2]

/-- Claim C8 (witness): the successful concrete run releases once. -/
theorem c8_witness :
    (⟨[StreamEvent.query_end "resultSet", StreamEvent.endOfStream], 1⟩ :
        ExecOutcome String).endQueryCalls = 1 ∧
    ∀ n : Int, 0 ≤ AthenaClient.endQuery n :=
  c8_slot_release successScript
    ⟨[StreamEvent.query_end "resultSet", StreamEvent.endOfStream], 1⟩ rfl

/-- Claim C9: for a non-negative ceiling, the acquire clamp keeps the
counter within the interval from 0 to the current ceiling after any
`startQuery` — including a call made when the counter already equals or
exceeds the ceiling (as after the ceiling was lowered mid-flight) — and
the release floor keeps a counter that is within the interval inside it. -/
theorem c9_counter_bounds (n m : Int) (hm : 0 ≤ m) :
    (0 ≤ n →
      0 ≤ AthenaClient.startQuery n m ∧ AthenaClient.startQuery n m ≤ m) ∧
    (0 ≤ n → n ≤ m →
      0 ≤ AthenaClient.endQuery n ∧ AthenaClient.endQuery n ≤ m) := by
  unfold AthenaClient.startQuery AthenaClient.endQuery
  constructor
  · intro hn
    constructor
    · exact le_min (by omega) hm
    · exact min_le_right _ _
  · intro hn hnm
    constructor
    · exact le_max_right _ _
    · exact max_le (by omega) hm

/-- Claim C9 (witness): a counter of 5 with the ceiling lowered to 3 is
clamped back into the interval by the next acquire. -/
theorem c9_witness :
    0 ≤ AthenaClient.startQuery 5 3 ∧ AthenaClient.startQuery 5 3 ≤ 3 :=
  (c9_counter_bounds 5 3 (by decide)).1 (by decide)

/-- Claim C10: every numeric option read through JS truthiness treats an
explicit 0 as absent: pollingInterval, execRightCheckInterval,
baseRetryWait, retryWaitMax and retryCountMax all resolve to their
documented defaults when passed as 0; concurrentExecMax = 0 in the client
configuration leaves the process-wide ceiling unchanged; and with
retryCountMax = 0 the retry guard still allows retries up to the default
cap of 10. -/
theorem c10_zero_config_uses_default (cc : AthenaClientConfig)
    (rc : AthenaRequestConfig) (current r : Nat) :
    (cc.pollingInterval = some 0 →
      resolvedPollingInterval cc = defaultPollingInterval) ∧
    (cc.execRightCheckInterval = some 0 →
      resolvedExecRightCheckInterval cc = defaultExecRightCheckInterval) ∧
    (rc.baseRetryWait = some 0 →
      resolvedBaseRetryWait rc = defaultBaseRetryWait) ∧
    (rc.retryWaitMax = some 0 →
      resolvedRetryWaitMax rc = defaultRetryWaitMax) ∧
    (rc.retryCountMax = some 0 →
      resolvedRetryCountMax rc = defaultRetryCountMax) ∧
    constructorConcurrentExecMax (some 0) current = current ∧
    (rc.retryCountMax = some 0 → (canRetry r rc = true ↔ r < 10)) := by
  refine ⟨?_, ?_, ?_, ?_, ?_, rfl, ?_⟩
  · intro h
    simp [resolvedPollingInterval, jsOrNat, h]
  · intro h
    simp [resolvedExecRightCheckInterval, jsOrNat, h]
  · intro h
    simp [resolvedBaseRetryWait, jsOrNat, h]
  · intro h
    simp [resolvedRetryWaitMax, jsOrNat, h]
  · intro h
    simp [resolvedRetryCountMax, jsOrNat, h]
  · intro h
    simp [canRetry, resolvedRetryCountMax, jsOrNat, h, defaultRetryCountMax]

/-- Claim C10 (witness): the all-zero configurations resolve to the
documented defaults, the ceiling stays at 5, and retry 3 is still allowed
under retryCountMax = 0. -/
theorem c10_witness :
    resolvedPollingInterval clientCfgZeros = defaultPollingInterval ∧
    resolvedExecRightCheckInterval clientCfgZeros = defaultExecRightCheckInterval ∧
    resolvedRetryCountMax cfgZeros = defaultRetryCountMax ∧
    constructorConcurrentExecMax (some 0) 5 = 5 ∧
    (canRetry 3 cfgZeros = true ↔ 3 < 10) :=
  ⟨(c10_zero_config_uses_default clientCfgZeros cfgZeros 5 3).1 rfl,
   (c10_zero_config_uses_default clientCfgZeros cfgZeros 5 3).2.1 rfl,
   (c10_zero_config_uses_default clientCfgZeros cfgZeros 5 3).2.2.2.2.1 rfl,
   (c10_zero_config_uses_default clientCfgZeros cfgZeros 5 3).2.2.2.2.2.1,
   (c10_zero_config_uses_default clientCfgZeros cfgZeros 5 3).2.2.2.2.2.2 rfl⟩
